import Mathlib

/-!
# Verification of the content-source synchronization and filtering subsystem

Shallow embedding of `src/content_manager.py` (classes `ContentSource` and
`ContentManager`, functions `extract_notebook_text` and
`load_files_from_sources`).

Modelling choices:
* Timestamps are integers counting microseconds (the resolution of Python's
  `datetime`); `timedelta(hours=1)` is `3600000000`, `timedelta(days=1)` is
  `86400000000`.
* A checkout tree is a `List (List String)`: the list of its regular files,
  each given as the list of its path components relative to the checkout
  root (POSIX host, so components are split on `/` and case-sensitive).
  Directories are the proper prefixes of file paths; since
  `ContentSource.get_files` discards non-files with `is_file()`, globbing is
  modelled directly as a filter over the file list.
* The external `git` processes invoked by `clone_or_pull` are an oracle
  (`FetchOutcome`): a run either succeeds and produces the new tree, exits
  non-zero (`subprocess.CalledProcessError`), or raises some other
  exception.  Per the ref-level atomicity of git fetch/clone, a failed run
  leaves the tree as it was.
* Pattern matching reimplements the exact Python semantics the code calls:
  `Path.glob` (where `**` is recursive and matches zero or more directory
  components, and a pattern whose final component is `**` yields only
  directories, hence no files) and `PurePosixPath.match` (right-anchored
  component-wise `fnmatch`, where `**` is NOT recursive: `fnmatch`
  translates it to `.*.*`, which matches exactly one path component, like
  `*`).  Character classes `[...]` of `fnmatch` are not used by this
  repository and are not modelled; `*`, `?` and literal characters are.
-/

/-- One microsecond-valued hour: Python's `timedelta(hours=1)`. -/
def microsecondsPerHour : Int := 3600000000

/-- One microsecond-valued day: Python's `timedelta(days=1)`. -/
def microsecondsPerDay : Int := 86400000000

/-- Split a character list on a separator character (like Python
`str.split(sep)`): `splitOnChar '/' "a/b".data = [['a'],['b']]`. -/
def splitOnChar (sep : Char) : List Char → List (List Char)
  | [] => [[]]
  | c :: rest =>
    let r := splitOnChar sep rest
    if c == sep then [] :: r
    else
      match r with
      | [] => [[c]]
      | h :: t => (c :: h) :: t

/-- Parse a path/pattern string into its components the way
`pathlib._Flavour.parse_parts` does for relative POSIX paths: split on `/`,
dropping empty components and `.` components. -/
def parseParts (s : String) : List String :=
  ((splitOnChar '/' s.data).map (fun cs => String.mk cs)).filter
    (fun p => p ≠ "" && p ≠ ".")

/-- Fuel-bounded `fnmatch.fnmatchcase` on a single path component:
`*` matches any (possibly empty) character sequence, `?` any single
character, other characters literally; the whole component must match
(`fullmatch`).  Consecutive stars (so the `**` that `PurePath.match` hands
to `fnmatch`) behave like a single `*`.  Every recursive call shortens
pattern or input, so fuel `|pat| + |s| + 1` always suffices. -/
def fnmatchFuel : Nat → List Char → List Char → Bool
  | 0, _, _ => false
  | _ + 1, [], s => s.isEmpty
  | fuel + 1, p :: ps, s =>
    if p == '*' then
      fnmatchFuel fuel ps s ||
        (match s with
         | [] => false
         | _ :: s2 => fnmatchFuel fuel (p :: ps) s2)
    else
      match s with
      | [] => false
      | c :: s2 => (p == '?' || p == c) && fnmatchFuel fuel ps s2

/-- `fnmatch.fnmatchcase(s, pat)` on strings. -/
def fnmatchStr (pat s : String) : Bool :=
  fnmatchFuel (pat.data.length + s.data.length + 1) pat.data s.data

/-- Fuel-bounded component matching of `Path.glob`: the pattern component
`**` matches zero or more directory components recursively; any other
component matches one path component by `fnmatch`.  Fuel
`|pats| + |segs| + 1` suffices since every call shortens one list. -/
def globMatchFuel : Nat → List String → List String → Bool
  | 0, _, _ => false
  | _ + 1, [], segs => segs.isEmpty
  | fuel + 1, p :: ps, segs =>
    if p == "**" then
      globMatchFuel fuel ps segs ||
        (match segs with
         | [] => false
         | _ :: rest => globMatchFuel fuel (p :: ps) rest)
    else
      match segs with
      | [] => false
      | s :: rest => fnmatchStr p s && globMatchFuel fuel ps rest

/-- Whether `local_path.glob(pattern)` yields the regular file whose
components relative to `local_path` are `f`.  A pattern whose final
component is `**` makes pathlib enumerate directories only, so it yields no
regular file.  Defined over non-empty relative patterns, the domain the
configuration schema authors: on an empty or absolute pattern `Path.glob`
raises (`ValueError` / `NotImplementedError`) instead of matching, which
this Boolean model does not represent. -/
def globMatchesFile (pattern : String) (f : List String) : Bool :=
  let parts := parseParts pattern
  if parts.getLastD "" == "**" then false
  else globMatchFuel (parts.length + f.length + 1) parts f

/-- `PurePosixPath(f).match(pattern)` where `f` is the root-relative
`rel_posix` computed by `get_files`: a relative pattern matches from the
right (the last `parts.length` components of the path), each component
compared with `fnmatch`; an absolute pattern has root `/` while `rel_posix`
has none, so the root comparison in `PurePath.match` fails and the call
returns `False` outright.  `**` here goes through `fnmatch` unchanged and
therefore matches exactly one component. -/
def pathMatch (pattern : String) (f : List String) : Bool :=
  let parts := parseParts pattern
  if pattern.data.headD ' ' == '/' then false
  else
    decide (parts.length ≤ f.length) &&
      (List.zip parts (f.drop (f.length - parts.length))).all
        (fun x => fnmatchStr x.1 x.2)

/-- `ContentSource.__init__` state: the configuration fields plus the
mutable runtime state.  `checkout = none` models `local_path` not existing;
`checkout = some tree` models it existing with `tree` the regular files
under it.  `last_update` is the in-memory timestamp, `markerFile` the
persisted `.last_update` sidecar.  `priority` is only carried through, never
computed with, so its float type is modelled as `Rat`. -/
structure ContentSource where
  name : String
  type : String
  url : String
  branch : String
  update_frequency : String
  include_paths : List String
  exclude_paths : List String
  priority : Rat
  source_label : String
  checkout : Option (List (List String))
  last_update : Option Int
  markerFile : Option Int
deriving Repr, DecidableEq

/-- `ContentSource.needs_update`: not-existing checkout → `True`; no
recorded sync → `True`; `on_startup` → `False`; `hourly` → strictly more
than one hour elapsed; `daily` → strictly more than one day elapsed;
`never` → `False`; any other cadence string falls through to `False`. -/
def needs_update (src : ContentSource) (now : Int) : Bool :=
  if src.checkout.isNone then true
  else
    match src.last_update with
    | none => true
    | some lu =>
      if src.update_frequency == "on_startup" then false
      else if src.update_frequency == "hourly" then
        decide (now - lu > microsecondsPerHour)
      else if src.update_frequency == "daily" then
        decide (now - lu > microsecondsPerDay)
      else if src.update_frequency == "never" then false
      else false

/-- Result of the external `git clone` / `git pull --ff-only` process run
by `clone_or_pull`: success with the resulting tree, a non-zero exit
(`subprocess.CalledProcessError`), or any other exception. -/
inductive FetchOutcome where
  | success (newTree : List (List String))
  | gitError
  | unexpected
deriving Repr, DecidableEq

/-- `true` exactly on `FetchOutcome.success`. -/
def FetchOutcome.isSuccess : FetchOutcome → Bool
  | .success _ => true
  | .gitError => false
  | .unexpected => false

/-- Environment of one `clone_or_pull` call: the git outcome plus whether
the best-effort write of the `.last_update` marker succeeds (its `OSError`
is swallowed by `_save_update_timestamp`). -/
structure FetchEnv where
  outcome : FetchOutcome
  markerWriteOk : Bool
deriving Repr, DecidableEq

/-- `ContentSource.clone_or_pull`: on git success the checkout becomes the
fetched tree, `last_update` is set to `now` and the marker is written
best-effort; the call returns `True` even if the marker write fails.  On
`CalledProcessError` or any other exception the error is logged, nothing is
modified and the call returns `False` (no exception escapes). -/
def clone_or_pull (env : FetchEnv) (now : Int) (src : ContentSource) :
    Bool × ContentSource :=
  match env.outcome with
  | .success t =>
    (true,
     { src with
        checkout := some t
        last_update := some now
        markerFile := if env.markerWriteOk then some now else src.markerFile })
  | .gitError => (false, src)
  | .unexpected => (false, src)

/-- The exclude check of `ContentSource.get_files`: the candidate's
root-relative POSIX path matches some exclude pattern
(`rel_posix.match(exclude_pattern)`). -/
def excludedBy (src : ContentSource) (f : List String) : Bool :=
  src.exclude_paths.any (fun ep => pathMatch ep f)

/-- Files contributed by one include pattern in `ContentSource.get_files`:
the glob matches of the pattern (regular files, in tree order) that survive
the exclude check. -/
def selectPattern (src : ContentSource) (tree : List (List String))
    (pattern : String) : List (List String) :=
  (tree.filter (fun f => globMatchesFile pattern f)).filter
    (fun f => !excludedBy src f)

/-- The `for pattern in self.include_paths` loop of
`ContentSource.get_files`, appending each pattern's survivors in order. -/
def includeLoop (src : ContentSource) (tree : List (List String)) :
    List String → List (List String)
  | [] => []
  | pattern :: rest => selectPattern src tree pattern ++ includeLoop src tree rest

/-- `ContentSource.get_files`: empty when the checkout path does not exist
(logged warning), otherwise one pass per include pattern.  Tree paths are
already relative to the root, so the defensive `ValueError` branch of
`relative_to` cannot fire in the model. -/
def get_files (src : ContentSource) : List (List String) :=
  match src.checkout with
  | none => []
  | some tree => includeLoop src tree src.include_paths

/-- The `for source in self.sources` loop of `ContentManager.update_all`:
`success` starts `True` and is set to `False` by any failed fetch; a source
is fetched only when `force` or `needs_update()` holds, and is otherwise
left untouched.  (`updated_count` only feeds logging.)  Each source is
paired with the environment of its would-be fetch. -/
def updateLoop (force : Bool) (now : Int) :
    List (ContentSource × FetchEnv) → Bool → List ContentSource →
    Bool × List ContentSource
  | [], success, acc => (success, acc)
  | (src, env) :: rest, success, acc =>
    if force || needs_update src now then
      let r := clone_or_pull env now src
      updateLoop force now rest (success && r.1) (acc ++ [r.2])
    else
      updateLoop force now rest success (acc ++ [src])

/-- `ContentManager.update_all`: with no configured sources it logs a
warning and returns `False`; otherwise it runs the per-source loop and
returns whether every attempted fetch succeeded, together with the
post-loop source states. -/
def update_all (force : Bool) (now : Int)
    (sources : List (ContentSource × FetchEnv)) : Bool × List ContentSource :=
  if sources.isEmpty then (false, sources.map Prod.fst)
  else updateLoop force now sources true []

/-- Number of sources for which `update_all` invokes `clone_or_pull`:
exactly those passing the `force or source.needs_update()` guard. -/
def attemptedFetches (force : Bool) (now : Int)
    (sources : List (ContentSource × FetchEnv)) : Nat :=
  (sources.filter (fun p => force || needs_update p.1 now)).length

/-- The `source` field of a notebook cell: JSON gives either a string or a
list of strings. -/
inductive CellSource where
  | str (s : String)
  | arr (l : List String)
deriving Repr, DecidableEq

/-- One notebook cell as `extract_notebook_text` reads it:
`cell.get('cell_type')` (absent key → `none`) and
`cell.get('source', [])`. -/
structure Cell where
  cell_type : Option String
  source : CellSource
deriving Repr, DecidableEq

/-- A parsed notebook: `notebook.get('cells', [])`. -/
structure Notebook where
  cells : List Cell
deriving Repr, DecidableEq

/-- The string a cell's `source` contributes: lists are joined
(`''.join(source)`), strings used as-is. -/
def cellContent : CellSource → String
  | .str s => s
  | .arr l => String.join l

/-- The `for i, cell in enumerate(notebook.get('cells', []), 1)` loop of
`extract_notebook_text`: markdown and code cells each append one section
labeled with the 1-based index `i`; cells of any other type append nothing
but still consume an index. -/
def renderCells : List Cell → Nat → List String
  | [], _ => []
  | c :: rest, i =>
    let content := cellContent c.source
    if c.cell_type == some "markdown" then
      ("## Cell " ++ toString i ++ " (Markdown)\n" ++ content ++ "\n")
        :: renderCells rest (i + 1)
    else if c.cell_type == some "code" then
      ("## Cell " ++ toString i ++ " (Code)\n```python\n" ++ content ++ "\n```\n")
        :: renderCells rest (i + 1)
    else renderCells rest (i + 1)

/-- `extract_notebook_text`: `none` models any exception on opening or
JSON-parsing the file (caught, logged, returns `""`); otherwise the heading
naming the file followed by the rendered cells, joined with
`'\n\n'.join(text_parts)`. -/
def extract_notebook_text (fileName : String) (nb : Option Notebook) : String :=
  match nb with
  | none => ""
  | some nb =>
    String.intercalate "\n\n"
      (("# Jupyter Notebook: " ++ fileName ++ "\n") :: renderCells nb.cells 1)

/-- The characters Python's `str.strip()` strips, i.e. those for which
`str.isspace()` holds (CPython's `Py_UNICODE_ISSPACE`): U+0009–U+000D,
U+001C–U+001F, the space, NEL U+0085, NBSP U+00A0, U+1680, U+2000–U+200A,
the line and paragraph separators U+2028/U+2029, U+202F, U+205F and the
ideographic space U+3000. -/
def isPySpace (c : Char) : Bool :=
  let n := c.toNat
  (decide (0x09 ≤ n) && decide (n ≤ 0x0D))
    || (decide (0x1C ≤ n) && decide (n ≤ 0x1F))
    || n == 0x20 || n == 0x85 || n == 0xA0 || n == 0x1680
    || (decide (0x2000 ≤ n) && decide (n ≤ 0x200A))
    || n == 0x2028 || n == 0x2029 || n == 0x202F || n == 0x205F || n == 0x3000

/-- `not content.strip()`: the string has no non-whitespace character. -/
def isBlank (s : String) : Bool :=
  s.data.all isPySpace

/-- `PurePath.suffix.lower()` of a file name: the part from the last dot,
provided that dot is neither the first nor the last character, lowercased
ASCII-wise. -/
def pySuffixLower (name : String) : String :=
  let cs := name.data
  let i := cs.length - 1 - (cs.reverse.indexOf '.')
  if ('.' ∈ cs) && decide (0 < i) && decide (i + 1 < cs.length) then
    String.mk ((cs.drop i).map Char.toLower)
  else ""

/-- One candidate reaching the per-file loop of `load_files_from_sources`:
the tuple from `get_all_files` plus the oracle for the filesystem reads the
loop performs.  `notebook` is the JSON parse result used when the suffix is
`.ipynb`; `rawText` is the lenient `read_text` result otherwise;
`readFails` models any exception raised inside the loop body for this file
(unreadable file, failing `stat()`), which is caught and skips the file. -/
structure LoadInput where
  path : List String
  sourceName : String
  priority : Rat
  sourceLabel : String
  notebook : Option Notebook
  rawText : String
  readFails : Bool
  mtime : Int
deriving Repr, DecidableEq

/-- Metadata attached to every emitted document. -/
structure DocMetadata where
  file : String
  full_path : String
  source : String
  source_label : String
  priority : Rat
  last_modified : Int
deriving Repr, DecidableEq

/-- POSIX rendering of a candidate path, for `str(file_path)` and
`file_path.name`. -/
def pathString (p : List String) : String :=
  String.intercalate "/" p

/-- The content extraction step of the per-file loop of
`load_files_from_sources`: notebook extraction when the lowercased suffix
is `.ipynb`, the lenient `read_text` result otherwise. -/
def extractedContent (inp : LoadInput) : String :=
  if pySuffixLower (inp.path.getLastD "") == ".ipynb" then
    extract_notebook_text (inp.path.getLastD "") inp.notebook
  else inp.rawText

/-- The body of the per-file loop of `load_files_from_sources`: extract the
content, skip the file when an exception occurred or the content strips to
empty, otherwise emit `(str(file_path), content, metadata)`. -/
def loadOne (inp : LoadInput) : Option (String × String × DocMetadata) :=
  if inp.readFails then none
  else if isBlank (extractedContent inp) then none
  else
    some (pathString inp.path, extractedContent inp,
      { file := inp.path.getLastD ""
        full_path := pathString inp.path
        source := inp.sourceName
        source_label := inp.sourceLabel
        priority := inp.priority
        last_modified := inp.mtime })

/-- The document-emission loop of `load_files_from_sources` over the
candidates produced by `get_all_files`: files that fail to load or whose
content is empty after stripping are skipped, everything else is emitted in
order. -/
def load_files_from_sources (inputs : List LoadInput) :
    List (String × String × DocMetadata) :=
  inputs.filterMap loadOne

/-! ## Helper lemmas -/

/-- Shared concrete source used to instantiate theorems. -/
def baseSource : ContentSource :=
  { name := "docs"
    type := "git"
    url := "https://example.org/docs.git"
    branch := "main"
    update_frequency := "daily"
    include_paths := []
    exclude_paths := []
    priority := 1
    source_label := "docs"
    checkout := some []
    last_update := some 0
    markerFile := some 0 }

theorem bool_imp_of_or (b c : Bool) : ((!b || c) = true) ↔ (b = true → c = true) := by
  cases b <;> cases c <;> simp

theorem clone_or_pull_fst (env : FetchEnv) (now : Int) (src : ContentSource) :
    (clone_or_pull env now src).1 = env.outcome.isSuccess := by
  cases h : env.outcome <;> simp [clone_or_pull, FetchOutcome.isSuccess, h]

theorem clone_or_pull_not_success (env : FetchEnv) (now : Int) (src : ContentSource)
    (h : env.outcome.isSuccess = false) :
    clone_or_pull env now src = (false, src) := by
  cases henv : env.outcome with
  | success t => rw [henv] at h; simp [FetchOutcome.isSuccess] at h
  | gitError => simp [clone_or_pull, henv]
  | unexpected => simp [clone_or_pull, henv]

theorem updateLoop_spec (force : Bool) (now : Int)
    (xs : List (ContentSource × FetchEnv)) :
    ∀ (b : Bool) (acc : List ContentSource),
      updateLoop force now xs b acc =
        (b && xs.all (fun p =>
           if force || needs_update p.1 now then p.2.outcome.isSuccess else true),
         acc ++ xs.map (fun p =>
           if force || needs_update p.1 now then (clone_or_pull p.2 now p.1).2 else p.1)) := by
  induction xs with
  | nil => intro b acc; simp [updateLoop]
  | cons hd tl ih =>
    intro b acc
    obtain ⟨src, env⟩ := hd
    cases hg : force || needs_update src now with
    | true =>
      simp only [updateLoop, hg, if_true, ih, clone_or_pull_fst, List.all_cons,
        List.map_cons]
      simp [Bool.and_assoc]
    | false =>
      simp only [updateLoop, hg, Bool.false_eq_true, if_false, ih, List.all_cons,
        List.map_cons]
      simp

/-! ## Claims -/

/-- C1: `needs_update` matches the §4.1 rule table evaluated in order: a
missing checkout directory returns `true` regardless of cadence or stored
timestamp; otherwise an absent `last_sync_time` returns `true`; otherwise
`on_startup` and `never` return `false`, `hourly` returns `true` iff
strictly more than one hour elapsed, and `daily` returns `true` iff
strictly more than 24 hours elapsed — so exactly at the boundary it
returns `false`. -/
theorem needs_update_rule_table (src : ContentSource) (now lu : Int) :
    (src.checkout = none → needs_update src now = true)
    ∧ (src.checkout ≠ none → src.last_update = none → needs_update src now = true)
    ∧ (src.checkout ≠ none → src.last_update = some lu →
        (src.update_frequency = "on_startup" → needs_update src now = false)
        ∧ (src.update_frequency = "never" → needs_update src now = false)
        ∧ (src.update_frequency = "hourly" →
            (needs_update src now = true ↔ now - lu > microsecondsPerHour))
        ∧ (src.update_frequency = "daily" →
            (needs_update src now = true ↔ now - lu > microsecondsPerDay))) := by
  refine ⟨fun h => ?_, fun h1 h2 => ?_,
    fun h1 h2 => ⟨fun hf => ?_, fun hf => ?_, fun hf => ?_, fun hf => ?_⟩⟩
  · simp [needs_update, h]
  · cases hc : src.checkout with
    | none => exact absurd hc h1
    | some t => simp [needs_update, hc, h2]
  all_goals
    cases hc : src.checkout with
    | none => exact absurd hc h1
    | some t => simp [needs_update, hc, h2, hf]

/-- Witness for C1: the daily cadence at exactly the 24-hour boundary does
not need an update, and a missing checkout always does. -/
theorem needs_update_rule_table_witness :
    needs_update baseSource microsecondsPerDay = false
    ∧ needs_update { baseSource with checkout := none } 0 = true := by
  constructor
  · have hd := ((needs_update_rule_table baseSource microsecondsPerDay 0).2.2
      (by simp [baseSource]) rfl).2.2.2 rfl
    apply Bool.eq_false_iff.mpr
    intro h
    exact absurd (hd.mp h) (by decide)
  · exact (needs_update_rule_table { baseSource with checkout := none } 0 0).1 rfl

/-- C2: when the fetch fails — the git process exits non-zero
(`CalledProcessError`) or any other exception is raised — `clone_or_pull`
returns `False` and leaves the whole source state (checkout tree,
`last_update`, marker file) unchanged; being a total function of the
outcome, it propagates no exception to the caller. -/
theorem clone_or_pull_failure_is_noop (mok : Bool) (now : Int) (src : ContentSource) :
    clone_or_pull { outcome := FetchOutcome.gitError, markerWriteOk := mok } now src
      = (false, src)
    ∧ clone_or_pull { outcome := FetchOutcome.unexpected, markerWriteOk := mok } now src
      = (false, src) :=
  ⟨rfl, rfl⟩

/-- C10: with an empty configured source list, `update_all` returns `False`
for every value of `force`, although zero fetches were attempted. -/
theorem update_all_empty_returns_false (force : Bool) (now : Int) :
    update_all force now [] = (false, [])
    ∧ attemptedFetches force now [] = 0 :=
  ⟨rfl, rfl⟩

/-- C3: fail-soft aggregation of `update_all`.  First, the two-source
scenario: a stale source A whose fetch succeeds followed by a stale source
B whose fetch fails gives return value `False`, with A's checkout and
timestamp reflecting the successful update and B left unchanged.  Second,
in general the return value is `True` exactly when the source list is
non-empty and every source passing the `force or needs_update()` guard
(skipped sources do not count) has a successful fetch. -/
theorem update_all_fail_soft
    (A B : ContentSource) (envA envB : FetchEnv) (now : Int)
    (tA : List (List String))
    (hA : needs_update A now = true) (hB : needs_update B now = true)
    (hSA : envA.outcome = FetchOutcome.success tA)
    (hFB : envB.outcome.isSuccess = false) :
    update_all false now [(A, envA), (B, envB)] =
      (false,
       [{ A with
            checkout := some tA
            last_update := some now
            markerFile := if envA.markerWriteOk then some now else A.markerFile },
        B])
    ∧ ∀ (force : Bool) (now2 : Int) (xs : List (ContentSource × FetchEnv)),
        ((update_all force now2 xs).1 = true ↔
          xs ≠ [] ∧ ∀ p ∈ xs, (force || needs_update p.1 now2) = true →
            p.2.outcome.isSuccess = true) := by
  constructor
  · have hcpA : clone_or_pull envA now A =
        (true,
         { A with
            checkout := some tA
            last_update := some now
            markerFile := if envA.markerWriteOk then some now else A.markerFile }) := by
      simp [clone_or_pull, hSA]
    have hcpB : clone_or_pull envB now B = (false, B) :=
      clone_or_pull_not_success envB now B hFB
    have hsA : envA.outcome.isSuccess = true := by
      rw [hSA]; rfl
    simp [update_all, updateLoop_spec, hA, hB, hcpA, hcpB, hsA, hFB]
  · intro force now2 xs
    cases xs with
    | nil => simp [update_all]
    | cons hd tl =>
      have hne : ((hd :: tl : List (ContentSource × FetchEnv)).isEmpty) = false := rfl
      rw [update_all, hne, if_neg (by simp), updateLoop_spec]
      simp only [Bool.true_and, List.all_eq_true]
      constructor
      · intro hall
        refine ⟨by simp, fun p hp hg => ?_⟩
        have hp2 := hall p hp
        rw [hg] at hp2
        simpa using hp2
      · rintro ⟨-, hforall⟩ p hp
        cases hgp : (force || needs_update p.1 now2) with
        | true => simpa [hgp] using hforall p hp hgp
        | false => simp [hgp]

/-- Stale source used in witnesses: a source whose checkout does not
exist yet. -/
def staleA : ContentSource :=
  { baseSource with name := "A", checkout := none, last_update := none }

/-- Second stale source used in witnesses. -/
def staleB : ContentSource :=
  { baseSource with name := "B", checkout := none, last_update := none }

/-- Fetch environment whose git run succeeds. -/
def envOkA : FetchEnv :=
  { outcome := FetchOutcome.success [["guide.md"]], markerWriteOk := true }

/-- Fetch environment whose git run exits non-zero. -/
def envFailB : FetchEnv :=
  { outcome := FetchOutcome.gitError, markerWriteOk := true }

/-- Witness for C3 at two concrete stale sources. -/
theorem update_all_fail_soft_witness :
    update_all false 5 [(staleA, envOkA), (staleB, envFailB)] =
      (false,
       [{ staleA with
            checkout := some [["guide.md"]]
            last_update := some 5
            markerFile := if envOkA.markerWriteOk then some 5 else staleA.markerFile },
        staleB]) :=
  (update_all_fail_soft staleA staleB envOkA envFailB 5 [["guide.md"]]
    (by decide) (by decide) rfl rfl).1

theorem excludedBy_false_of_mem_includeLoop (src : ContentSource)
    (tree : List (List String)) (f : List String) :
    ∀ pats : List String, f ∈ includeLoop src tree pats →
      excludedBy src f = false := by
  intro pats
  induction pats with
  | nil => intro h; simp [includeLoop] at h
  | cons p ps ih =>
    intro h
    rw [includeLoop] at h
    rcases List.mem_append.mp h with h1 | h1
    · have h2 := (List.mem_filter.mp h1).2
      simpa using h2
    · exact ih h1

/-- C4: a file matching at least one include pattern and at least one
exclude pattern (in the sense the code matches them: `Path.glob` for
includes, `PurePosixPath.match` for excludes) is never selected by
`get_files` — a single matching exclude pattern suffices, exclusion always
wins over inclusion. -/
theorem exclude_wins_over_include (src : ContentSource) (f : List String)
    (_hinc : ∃ ip ∈ src.include_paths, globMatchesFile ip f = true)
    (hexc : ∃ ep ∈ src.exclude_paths, pathMatch ep f = true) :
    f ∉ get_files src := by
  intro hmem
  have hexc' : excludedBy src f = true :=
    List.any_eq_true.mpr hexc
  cases hc : src.checkout with
  | none =>
    simp only [get_files, hc] at hmem
    exact absurd hmem (List.not_mem_nil f)
  | some tree =>
    simp only [get_files, hc] at hmem
    have hfalse := excludedBy_false_of_mem_includeLoop src tree f
      src.include_paths hmem
    rw [hexc'] at hfalse
    exact absurd hfalse (by simp)

/-- Source used in the C4 witness: a draft file nested one level deep
matches both the include and the exclude pattern. -/
def srcGuides : ContentSource :=
  { baseSource with
      include_paths := ["**/*.txt"]
      exclude_paths := ["**/draft_*.txt"]
      checkout := some [["a.txt"], ["notes", "draft_x.txt"]] }

/-- Witness for C4: the nested draft file is not selected. -/
theorem exclude_wins_over_include_witness :
    ["notes", "draft_x.txt"] ∉ get_files srcGuides :=
  exclude_wins_over_include srcGuides ["notes", "draft_x.txt"]
    ⟨"**/*.txt", by decide, by decide⟩
    ⟨"**/draft_*.txt", by decide, by decide⟩

/-- C7 counterexample: a manager with an empty source list vacuously has no
stale source, performs zero fetches and changes nothing, yet
`update_all(force := False)` returns `False`, not `True` as claimed. -/
theorem refresh_idempotent_counterexample :
    (update_all false 0 ([] : List (ContentSource × FetchEnv))).1 ≠ true := by
  decide

/-- C7 amended: for a manager with at least one configured source, if no
source is stale then `update_all(force := False)` performs zero fetches,
changes no source state, and returns `True`. -/
theorem update_all_no_stale_noop (now : Int) (xs : List (ContentSource × FetchEnv))
    (hne : xs ≠ [])
    (h : ∀ p ∈ xs, needs_update p.1 now = false) :
    update_all false now xs = (true, xs.map Prod.fst)
    ∧ attemptedFetches false now xs = 0 := by
  constructor
  · rw [update_all, if_neg (by simpa using hne), updateLoop_spec]
    have hall : (xs.all fun p =>
        if false || needs_update p.1 now then p.2.outcome.isSuccess else true) = true := by
      rw [List.all_eq_true]
      intro p hp
      simp [h p hp]
    have hmap : (xs.map fun p =>
        if false || needs_update p.1 now then (clone_or_pull p.2 now p.1).2 else p.1)
        = xs.map Prod.fst := by
      apply List.map_congr_left
      intro p hp
      simp [h p hp]
    rw [hall, hmap]
    simp
  · rw [attemptedFetches]
    have hfil : xs.filter (fun p => false || needs_update p.1 now) = [] := by
      rw [List.filter_eq_nil_iff]
      intro p hp
      simp [h p hp]
    rw [hfil]
    rfl

/-- Fresh source used in the C7 witness: cadence `never`, existing checkout
and recorded sync, hence not stale. -/
def freshNever : ContentSource :=
  { baseSource with update_frequency := "never" }

/-- Witness for C7 at a one-source manager with nothing stale. -/
theorem update_all_no_stale_noop_witness :
    update_all false 0 [(freshNever, envFailB)] = (true, [freshNever])
    ∧ attemptedFetches false 0 [(freshNever, envFailB)] = 0 :=
  update_all_no_stale_noop 0 [(freshNever, envFailB)] (by decide) (by decide)

/-- The §8 filtering scenario source: fresh source, cadence `daily`,
include `**/*.txt`, exclude `**/draft_*.txt`, tree containing `a.txt`,
`draft_b.txt` and `notes/c.txt`. -/
def srcScenario : ContentSource :=
  { baseSource with
      include_paths := ["**/*.txt"]
      exclude_paths := ["**/draft_*.txt"]
      checkout := some [["a.txt"], ["draft_b.txt"], ["notes", "c.txt"]]
      last_update := none }

/-- C5 counterexample: on the scenario tree the selected set is NOT
`{a.txt, notes/c.txt}` — the top-level `draft_b.txt` is selected, because
`PurePosixPath.match` treats `**` as exactly one component, so the exclude
pattern `**/draft_*.txt` needs at least two components and misses a
top-level file. -/
theorem get_files_scenario_counterexample :
    ¬ (∀ f, f ∈ get_files srcScenario ↔ (f = ["a.txt"] ∨ f = ["notes", "c.txt"])) := by
  intro h
  have hmem : ["draft_b.txt"] ∈ get_files srcScenario := by decide
  exact absurd ((h ["draft_b.txt"]).mp hmem) (by decide)

/-- C5 amended: the selected set of the scenario is
`{a.txt, draft_b.txt, notes/c.txt}`: the exclude pattern only excludes
draft files at depth ≥ 1, not at the top level. -/
theorem get_files_scenario_amended :
    get_files srcScenario = [["a.txt"], ["draft_b.txt"], ["notes", "c.txt"]] := by
  decide

/-- Source whose single file matches both of its include patterns. -/
def srcTwoIncludes : ContentSource :=
  { baseSource with
      include_paths := ["*.txt", "a.*"]
      checkout := some [["a.txt"]]
      last_update := none }

/-- C6 counterexample: `get_files` appends each include pattern's glob
results without de-duplication, so a file matched by two include patterns
appears twice in the result. -/
theorem get_files_no_duplicates_counterexample :
    (get_files srcTwoIncludes).count ["a.txt"] = 2
    ∧ ¬ (get_files srcTwoIncludes).Nodup := by
  exact ⟨by decide, by decide⟩

theorem count_filter_eq {α : Type} [BEq α] [LawfulBEq α]
    (p : α → Bool) (l : List α) (a : α) :
    (l.filter p).count a = if p a then l.count a else 0 := by
  by_cases hpa : p a = true
  · rw [List.count_filter hpa, if_pos hpa]
  · have hnot : a ∉ l.filter p := fun hmem => hpa (List.mem_filter.mp hmem).2
    rw [List.count_eq_zero.mpr hnot, if_neg hpa]

theorem count_eq_one_of_nodup_mem {α : Type} [BEq α] [LawfulBEq α]
    {l : List α} {a : α} (hnd : l.Nodup) (ha : a ∈ l) : l.count a = 1 := by
  induction l with
  | nil => simp at ha
  | cons x xs ih =>
    rw [List.count_cons]
    rcases List.mem_cons.mp ha with rfl | hmem
    · rw [List.count_eq_zero.mpr (List.nodup_cons.mp hnd).1]
      simp
    · rw [ih (List.nodup_cons.mp hnd).2 hmem]
      have hne : x ≠ a := fun h => (List.nodup_cons.mp hnd).1 (h ▸ hmem)
      simp [hne]

theorem includeLoop_count (src : ContentSource) (tree : List (List String))
    (f : List String) (hnd : tree.Nodup) (hf : f ∈ tree)
    (hex : excludedBy src f = false) :
    ∀ pats : List String,
      (includeLoop src tree pats).count f
        = (pats.filter (fun p => globMatchesFile p f)).length := by
  intro pats
  induction pats with
  | nil => simp [includeLoop]
  | cons p ps ih =>
    rw [includeLoop, List.count_append, ih, List.filter_cons]
    have hsel : (selectPattern src tree p).count f
        = if globMatchesFile p f then 1 else 0 := by
      rw [selectPattern, count_filter_eq, count_filter_eq,
        count_eq_one_of_nodup_mem hnd hf]
      simp [hex]
    rw [hsel]
    by_cases hg : globMatchesFile p f = true
    · simp [hg, Nat.add_comm]
    · simp [hg]

/-- C6 amended: the result of `get_files` is not duplicate-free; instead
a tree file that survives the exclude check occurs once per include pattern
whose glob matches it (so a file matched by several include patterns
appears several times, not once). -/
theorem get_files_count_per_matching_pattern (src : ContentSource)
    (tree : List (List String)) (f : List String)
    (hc : src.checkout = some tree) (hnd : tree.Nodup) (hf : f ∈ tree)
    (hex : excludedBy src f = false) :
    (get_files src).count f
      = (src.include_paths.filter (fun p => globMatchesFile p f)).length := by
  simp only [get_files, hc]
  exact includeLoop_count src tree f hnd hf hex src.include_paths

/-- Witness for C6's amended claim at the two-pattern source. -/
theorem get_files_count_per_matching_pattern_witness :
    (get_files srcTwoIncludes).count ["a.txt"]
      = (srcTwoIncludes.include_paths.filter
          (fun p => globMatchesFile p ["a.txt"])).length :=
  get_files_count_per_matching_pattern srcTwoIncludes [["a.txt"]] ["a.txt"]
    rfl (by decide) (by decide) (by decide)

/-- C8: every document emitted by the loading loop has content with at
least one non-whitespace character — files whose extracted content is
empty or all-whitespace (`not content.strip()`) are skipped, never
emitted. -/
theorem emitted_documents_nonblank (inputs : List LoadInput)
    (d : String × String × DocMetadata)
    (hd : d ∈ load_files_from_sources inputs) :
    isBlank d.2.1 = false := by
  rw [load_files_from_sources, List.mem_filterMap] at hd
  obtain ⟨inp, -, hsome⟩ := hd
  rw [loadOne] at hsome
  by_cases hrf : inp.readFails = true
  · rw [if_pos hrf] at hsome
    exact absurd hsome (by simp)
  · rw [if_neg hrf] at hsome
    by_cases hb : isBlank (extractedContent inp) = true
    · rw [if_pos hb] at hsome
      exact absurd hsome (by simp)
    · rw [if_neg hb] at hsome
      injection hsome with heq
      subst heq
      simpa using hb

/-- Candidate used in the C8 witness: a plain-text file with real
content. -/
def inputHello : LoadInput :=
  { path := ["repo", "a.txt"]
    sourceName := "docs"
    priority := 1
    sourceLabel := "docs"
    notebook := none
    rawText := "hello world"
    readFails := false
    mtime := 7 }

/-- The document the loading loop emits for `inputHello`. -/
def docHello : String × String × DocMetadata :=
  ("repo/a.txt", "hello world",
   { file := "a.txt"
     full_path := "repo/a.txt"
     source := "docs"
     source_label := "docs"
     priority := 1
     last_modified := 7 })

/-- Witness for C8 at a concrete emitted document. -/
theorem emitted_documents_nonblank_witness :
    isBlank docHello.2.1 = false :=
  emitted_documents_nonblank [inputHello] docHello (by decide)

/-- The §8 notebook scenario: one markdown cell containing `Intro` and one
code cell containing `x = 1`. -/
def nbScenario : Notebook :=
  { cells :=
      [ { cell_type := some "markdown", source := CellSource.str "Intro" },
        { cell_type := some "code", source := CellSource.str "x = 1" } ] }

/-- C9: extracting the scenario notebook yields, in order: the
document-level heading naming the source file, a markdown section labeled
`Cell 1`, and a fenced code section labeled `Cell 2` containing `x = 1`,
with 1-based cell labels and blank-line separators between sections. -/
theorem extract_notebook_scenario :
    extract_notebook_text "example.ipynb" (some nbScenario) =
      "# Jupyter Notebook: example.ipynb\n\n\n## Cell 1 (Markdown)\nIntro\n\n\n## Cell 2 (Code)\n```python\nx = 1\n```\n" := by
  decide
